import Mathlib

/-!
Shallow embedding of the FoodVision AI analysis pipeline
(`server.js` and `app.js`): the JSON data model, the
brace-extraction and JSON-parsing step of the provider response
normalizers, the `/api/analyze` route handler, the API-key format
validators, the client orchestrator `analyzeImageWithAI`, and the
mock analysis generator `getMockAnalysisResult`.
-/

/-- JavaScript JSON values as produced by `JSON.parse`. A number literal
is kept exactly as `mantissa * 10 ^ exp10` (JSON number literals are
decimal, so every literal is representable this way; IEEE-754 rounding
of extreme values is outside the model). -/
inductive Json where
  | null
  | bool (b : Bool)
  | num (mantissa : Int) (exp10 : Int)
  | str (s : String)
  | arr (elems : List Json)
  | obj (fields : List (String × Json))

/-- JavaScript property access `v.key` on a parsed JSON value: on an
object the value of the last occurrence of `key` (as `JSON.parse` keeps
the last duplicate), otherwise absent (`undefined`). -/
def jsField (v : Json) (key : String) : Option Json :=
  match v with
  | .obj fields => fields.foldl (fun acc kv => if kv.1 = key then some kv.2 else acc) none
  | _ => none

/-- JSON whitespace accepted by `JSON.parse`. -/
def isJsonWs (c : Char) : Bool :=
  c = ' ' || c = '\t' || c = '\n' || c = '\r'

/-- Drop leading JSON whitespace. -/
def skipWs : List Char → List Char
  | [] => []
  | c :: cs => if isJsonWs c then skipWs cs else c :: cs

/-- Value of one hex digit, if `c` is one. -/
def parseHexDigit (c : Char) : Option Nat :=
  if '0' ≤ c ∧ c ≤ '9' then some (c.toNat - 48)
  else if 'a' ≤ c ∧ c ≤ 'f' then some (c.toNat - 87)
  else if 'A' ≤ c ∧ c ≤ 'F' then some (c.toNat - 55)
  else none

/-- Single-character JSON string escapes. -/
def escChar : Char → Option Char
  | '"' => some '"'
  | '\\' => some '\\'
  | '/' => some '/'
  | 'b' => some (Char.ofNat 8)
  | 'f' => some (Char.ofNat 12)
  | 'n' => some '\n'
  | 'r' => some '\r'
  | 't' => some '\t'
  | _ => none

/-- Body of a JSON string after the opening quote: reads characters up
to the closing quote, decoding escapes; unescaped control characters
and bad escapes fail, as in `JSON.parse`. `\u` escapes go through
`Char.ofNat` (surrogate-pair recombination is outside the model). -/
def parseStringBody : List Char → List Char → Option (String × List Char)
  | [], _ => none
  | '"' :: rest, acc => some (String.mk acc.reverse, rest)
  | '\\' :: 'u' :: h1 :: h2 :: h3 :: h4 :: rest, acc =>
    match parseHexDigit h1, parseHexDigit h2, parseHexDigit h3, parseHexDigit h4 with
    | some a, some b, some c, some d =>
      parseStringBody rest (Char.ofNat (((a * 16 + b) * 16 + c) * 16 + d) :: acc)
    | _, _, _, _ => none
  | '\\' :: e :: rest, acc =>
    match escChar e with
    | some c => parseStringBody rest (c :: acc)
    | none => none
  | c :: rest, acc =>
    if c.toNat < 32 then none else parseStringBody rest (c :: acc)

/-- Split off the leading run of decimal digits. -/
def takeDigits : List Char → List Char × List Char
  | [] => ([], [])
  | c :: cs =>
    if c.isDigit then
      let p := takeDigits cs
      (c :: p.1, p.2)
    else ([], c :: cs)

/-- Numeric value of a digit run. -/
def digitsToNat (ds : List Char) : Nat :=
  ds.foldl (fun n c => n * 10 + (c.toNat - 48)) 0

/-- Assemble a parsed JSON number from its sign, integer part,
fraction digits and decimal exponent. -/
def mkNum (neg : Bool) (intPart : Nat) (fracDigits : List Char) (e : Int) : Json :=
  let mNat : Nat := intPart * 10 ^ fracDigits.length + digitsToNat fracDigits
  let m : Int := if neg then -(mNat : Int) else (mNat : Int)
  .num m (e - fracDigits.length)

/-- Exponent part of a JSON number (after `e`/`E`). -/
def parseExpDigits (neg : Bool) (intPart : Nat) (fracDigits : List Char)
    (cs : List Char) : Option (Json × List Char) :=
  let p : Bool × List Char :=
    match cs with
    | '+' :: r => (false, r)
    | '-' :: r => (true, r)
    | _ => (false, cs)
  match takeDigits p.2 with
  | ([], _) => none
  | (ds, rest) =>
    let e : Int := if p.1 then -(digitsToNat ds : Int) else (digitsToNat ds : Int)
    some (mkNum neg intPart fracDigits e, rest)

/-- Optional exponent after the integer/fraction part. -/
def parseExpTail (neg : Bool) (intPart : Nat) (fracDigits : List Char)
    (cs : List Char) : Option (Json × List Char) :=
  match cs with
  | 'e' :: rest => parseExpDigits neg intPart fracDigits rest
  | 'E' :: rest => parseExpDigits neg intPart fracDigits rest
  | _ => some (mkNum neg intPart fracDigits 0, cs)

/-- Optional fraction after the integer part. -/
def parseNumTail (neg : Bool) (intPart : Nat) (cs : List Char) :
    Option (Json × List Char) :=
  match cs with
  | '.' :: rest =>
    match takeDigits rest with
    | ([], _) => none
    | (ds, cs2) => parseExpTail neg intPart ds cs2
  | _ => parseExpTail neg intPart [] cs

/-- A JSON number literal per the JSON grammar enforced by
`JSON.parse`: optional minus, `0` or a non-zero-led digit run, optional
fraction, optional exponent. -/
def parseNumber (cs : List Char) : Option (Json × List Char) :=
  let p : Bool × List Char :=
    match cs with
    | '-' :: rest => (true, rest)
    | _ => (false, cs)
  match p.2 with
  | '0' :: rest => parseNumTail p.1 0 rest
  | c :: _ =>
    if c.isDigit then
      match takeDigits p.2 with
      | (ds, rest) => parseNumTail p.1 (digitsToNat ds) rest
    else none
  | [] => none

/-- What the recursive-descent `JSON.parse` model is currently reading:
a value, the members of an object, or the elements of an array. -/
inductive ParseTask where
  | value
  | members (acc : List (String × Json))
  | elements (acc : List Json)

/-- Fuel-indexed recursive descent over the JSON grammar, modelling
`JSON.parse`. Every recursive call spends one unit of fuel and the
driver supplies more fuel than the input length can consume, so fuel
exhaustion never decides an actual input. -/
def runParse (fuel : Nat) (task : ParseTask) (cs : List Char) :
    Option (Json × List Char) :=
  match fuel with
  | 0 => none
  | fuel + 1 =>
    match task with
    | .value =>
      match skipWs cs with
      | [] => none
      | '\x7b' :: rest =>
        match skipWs rest with
        | '\x7d' :: rest2 => some (.obj [], rest2)
        | rest2 => runParse fuel (.members []) rest2
      | '[' :: rest =>
        match skipWs rest with
        | ']' :: rest2 => some (.arr [], rest2)
        | rest2 => runParse fuel (.elements []) rest2
      | '"' :: rest =>
        match parseStringBody rest [] with
        | some (s, rest2) => some (.str s, rest2)
        | none => none
      | 't' :: 'r' :: 'u' :: 'e' :: rest => some (.bool true, rest)
      | 'f' :: 'a' :: 'l' :: 's' :: 'e' :: rest => some (.bool false, rest)
      | 'n' :: 'u' :: 'l' :: 'l' :: rest => some (.null, rest)
      | other => parseNumber other
    | .members acc =>
      match skipWs cs with
      | '"' :: rest =>
        match parseStringBody rest [] with
        | some (key, rest2) =>
          match skipWs rest2 with
          | ':' :: rest3 =>
            match runParse fuel .value rest3 with
            | some (v, rest4) =>
              match skipWs rest4 with
              | ',' :: rest5 => runParse fuel (.members (acc ++ [(key, v)])) rest5
              | '\x7d' :: rest5 => some (.obj (acc ++ [(key, v)]), rest5)
              | _ => none
            | none => none
          | _ => none
        | none => none
      | _ => none
    | .elements acc =>
      match runParse fuel .value cs with
      | some (v, rest) =>
        match skipWs rest with
        | ',' :: rest2 => runParse fuel (.elements (acc ++ [v])) rest2
        | ']' :: rest2 => some (.arr (acc ++ [v]), rest2)
        | _ => none
      | none => none

/-- `JSON.parse` on a character list: one JSON value followed only by
whitespace, else failure (a thrown `SyntaxError` in JavaScript). -/
def jsonParseL (cs : List Char) : Option Json :=
  match runParse (2 * cs.length + 8) .value cs with
  | some (v, rest) =>
    match skipWs rest with
    | [] => some v
    | _ => none
  | none => none

/-- `JSON.parse` on a string. -/
def jsonParse (s : String) : Option Json := jsonParseL s.data

/-- Index of the first occurrence of `c`. -/
def idxOf (c : Char) : List Char → Option Nat
  | [] => none
  | d :: ds => if d = c then some 0 else (idxOf c ds).map (· + 1)

/-- Index of the last occurrence of `c`. -/
def lastIdxOf (c : Char) (cs : List Char) : Option Nat :=
  match idxOf c cs.reverse with
  | some k => some (cs.length - 1 - k)
  | none => none

/-- The regex match `analysisText.match(brace, any-chars greedy, brace)`
used by both server normalizers: the match succeeds iff some opening
brace precedes some closing brace, and then spans from the first
opening brace to the last closing brace of the whole text (the greedy
star backtracks to the final closing brace). -/
def braceMatch (cs : List Char) : Option (List Char) :=
  match idxOf '\x7b' cs, lastIdxOf '\x7d' cs with
  | some i, some j => if i < j then some ((cs.drop i).take (j - i + 1)) else none
  | _, _ => none

/-- Default message when the reply contains no brace-delimited
substring (`server.js` lines 418 and 559). -/
def noJsonMsg : String := "Unable to analyze image. Please take a clear photo of food items."

/-- Default message when `JSON.parse` throws on the extracted substring
(`server.js` lines 425 and 566). -/
def parseFailMsg : String := "Error analyzing image. Please try again with a clear photo of food items."

/-- Default message when the parsed object has no boolean
`foodDetected` field (`server.js` lines 411 and 552). -/
def undeterminedMsg : String := "Unable to determine if food is present. Please take a clear photo of food items."

/-- The no-food fallback object literal the normalizers return. -/
def mkNoFoodResult (msg : String) : Json :=
  .obj [("foodDetected", .bool false), ("message", .str msg)]

/-- The response-normalization step shared verbatim by
`analyzeWithGemini` (`server.js` 392-427) and `analyzeWithPerplexity`
(`server.js` 533-568): extract the greedy brace-delimited substring of
the model reply, `JSON.parse` it, then branch on the `foodDetected`
field, returning the parsed object unchanged when that field is
boolean and a fixed no-food default otherwise. -/
def normalizeAnalysisText (analysisText : String) : Json :=
  match braceMatch analysisText.data with
  | none => mkNoFoodResult noJsonMsg
  | some sub =>
    match jsonParseL sub with
    | none => mkNoFoodResult parseFailMsg
    | some parsedResult =>
      match jsField parsedResult "foodDetected" with
      | some (.bool false) => parsedResult
      | some (.bool true) => parsedResult
      | _ => mkNoFoodResult undeterminedMsg

/-- The normalization tail of `analyzeWithGemini` (`server.js`
392-427). -/
def analyzeWithGeminiNormalize (analysisText : String) : Json :=
  normalizeAnalysisText analysisText

/-- The normalization tail of `analyzeWithPerplexity` (`server.js`
533-568); its body is character-for-character the Gemini one. -/
def analyzeWithPerplexityNormalize (analysisText : String) : Json :=
  normalizeAnalysisText analysisText


/-- Truthiness of a JavaScript string-or-undefined value: `undefined`
and the empty string are falsy, every other string is truthy. -/
def jsTruthy : Option String → Bool
  | none => false
  | some s => s != ""

/-- JavaScript `s.startsWith(p)`, modelled over the character lists. -/
def strStartsWith (s p : String) : Bool := p.data.isPrefixOf s.data

/-- The well-known placeholder Perplexity key rejected by the
validators (`server.js` line 200, `app.js` line 397). -/
def pplxPlaceholder : String := "pplx-xxxxxxxxxxxxxxxxxxxxxxxxxxxxxxxxxxxxxxxx"

/-- `isValidAPIKey` of `server.js` (lines 198-203): the Perplexity key
format check. The argument is the environment variable, absent when
unset; the JavaScript function returns the chain
truthy-and-not-placeholder-and-prefix-and-length, which is truthy
exactly when this returns `true`. -/
def isValidAPIKey : Option String → Bool
  | none => false
  | some apiKey =>
    apiKey != "" && apiKey != pplxPlaceholder && strStartsWith apiKey "pplx-" &&
      decide (apiKey.length > 20)

/-- `isValidGeminiAPIKey` of `server.js` (lines 210-214): the Gemini
key format check. -/
def isValidGeminiAPIKey : Option String → Bool
  | none => false
  | some apiKey =>
    apiKey != "" && strStartsWith apiKey "AIza" && decide (apiKey.length > 20)

/-- The process environment the server reads keys from. -/
structure ServerEnv where
  geminiApiKey : Option String
  perplexityApiKey : Option String

/-- Outcome of an awaited `analyzeWith...` provider call: resolved with
a result, or rejected (for example on a non-2xx provider response). -/
inductive CallOutcome where
  | ok (result : Json)
  | thrown (message : String)

/-- An HTTP response of the route handler: status code and JSON body. -/
structure HttpResponse where
  status : Nat
  body : Json

/-- The error envelope the route sends with 400/500 statuses. -/
def errBody (error message : String) : Json :=
  .obj [("error", .str error), ("message", .str message)]

/-- The `POST /api/analyze` route handler (`server.js` lines 132-172).
`imageData`/`provider` are the request-body fields (absent when
missing; `provider` defaults to `"gemini"` only when absent, per the
destructuring default). The provider-call outcomes are passed in as
the awaited results of `analyzeWithGemini`/`analyzeWithPerplexity`;
the second component records which provider analyses were invoked. -/
def analyzeHandler (env : ServerEnv) (imageData : Option String)
    (provider : Option String) (geminiCall perplexityCall : CallOutcome) :
    HttpResponse × List String :=
  let providerName := provider.getD "gemini"
  if jsTruthy imageData = false then
    (⟨400, errBody "Missing image data" "Image data is required for analysis"⟩, [])
  else if providerName = "gemini" then
    if isValidGeminiAPIKey env.geminiApiKey = false then
      (⟨400, errBody "Gemini API key not configured"
        "Please set a valid Gemini API key in environment variables"⟩, [])
    else
      match geminiCall with
      | .ok r => (⟨200, r⟩, ["gemini"])
      | .thrown m => (⟨500, errBody "Analysis failed" m⟩, ["gemini"])
  else
    if isValidAPIKey env.perplexityApiKey = false then
      (⟨400, errBody "Perplexity API key not configured"
        "Please set a valid Perplexity API key in environment variables"⟩, [])
    else
      match perplexityCall with
      | .ok r => (⟨200, r⟩, ["perplexity"])
      | .thrown m => (⟨500, errBody "Analysis failed" m⟩, ["perplexity"])

/-- The `GET /api/config` payload the client orchestrator fetches. -/
structure APIConfig where
  perplexityApiKey : Option String
  geminiApiKey : Option String
  defaultProvider : Option String

/-- JavaScript `a OR b` on a string-or-undefined left side: the default
is taken when the left side is absent or falsy (empty). -/
def jsOrDefault (o : Option String) (d : String) : String :=
  match o with
  | none => d
  | some s => if s = "" then d else s

/-- `isValidAPIKey` of `app.js` (lines 389-401): the client-side key
format check, branching on the provider id. -/
def clientIsValidAPIKey (apiKey : Option String) (provider : String) : Bool :=
  match apiKey with
  | none => false
  | some k =>
    if k = "" then false
    else if provider = "gemini" then strStartsWith k "AIza" && decide (k.length > 20)
    else k != pplxPlaceholder && strStartsWith k "pplx-" && decide (k.length > 20)

/-- The no-food branch of `getMockAnalysisResult` (`app.js` 503-508). -/
def noFoodMockResult : Json :=
  .obj [("foodDetected", .bool false),
        ("message", .str "No food detected in this image. Please take a photo showing actual food items like prepared dishes, meals, or food ready to eat.")]

/-- First mock catalog dish (`app.js` 511-529). -/
def mockDish1 : Json :=
  .obj [("foodDetected", .bool true),
        ("rating", .num 1 0),
        ("ratingName", .str "Premium"),
        ("foodName", .str "Grilled Salmon with Quinoa"),
        ("productDetails", .obj [
          ("category", .str "Healthy Seafood"),
          ("estimatedCalories", .str "420 kcal"),
          ("protein", .str "28g"),
          ("carbs", .str "35g"),
          ("fat", .str "18g"),
          ("fiber", .str "8g"),
          ("sodium", .str "580mg")]),
        ("healthScore", .num 92 0),
        ("pros", .arr [.str "Perfectly grilled salmon", .str "Nutrient-rich quinoa",
          .str "Beautiful presentation", .str "Balanced macronutrients",
          .str "Fresh vegetables"]),
        ("cons", .arr [.str "Could use more seasoning", .str "Portion slightly small"]),
        ("recommendations", .arr [.str "Add lemon for extra flavor",
          .str "Consider larger portion for active individuals"])]

/-- Second mock catalog dish (`app.js` 530-548). -/
def mockDish2 : Json :=
  .obj [("foodDetected", .bool true),
        ("rating", .num 2 0),
        ("ratingName", .str "High Standard"),
        ("foodName", .str "Mediterranean Chicken Bowl"),
        ("productDetails", .obj [
          ("category", .str "Mediterranean"),
          ("estimatedCalories", .str "380 kcal"),
          ("protein", .str "32g"),
          ("carbs", .str "28g"),
          ("fat", .str "14g"),
          ("fiber", .str "12g"),
          ("sodium", .str "620mg")]),
        ("healthScore", .num 88 0),
        ("pros", .arr [.str "Fresh ingredients", .str "Good protein content",
          .str "Healthy vegetables", .str "Nice seasoning", .str "Balanced nutrition"]),
        ("cons", .arr [.str "Could use more sauce", .str "Portion slightly small"]),
        ("recommendations", .arr [.str "Add tahini sauce",
          .str "Include more vegetables for fiber"])]

/-- Third mock catalog dish (`app.js` 549-567). -/
def mockDish3 : Json :=
  .obj [("foodDetected", .bool true),
        ("rating", .num 3 0),
        ("ratingName", .str "Standard"),
        ("foodName", .str "Homemade Pasta with Vegetables"),
        ("productDetails", .obj [
          ("category", .str "Italian Home Cooking"),
          ("estimatedCalories", .str "450 kcal"),
          ("protein", .str "18g"),
          ("carbs", .str "65g"),
          ("fat", .str "12g"),
          ("fiber", .str "8g"),
          ("sodium", .str "580mg")]),
        ("healthScore", .num 75 0),
        ("pros", .arr [.str "Fresh pasta", .str "Good portion size",
          .str "Contains vegetables", .str "Homemade taste"]),
        ("cons", .arr [.str "Could use more protein", .str "Sauce needs improvement",
          .str "Slightly overcooked"]),
        ("recommendations", .arr [.str "Add lean meat or cheese",
          .str "Improve sauce consistency", .str "Cook pasta al dente"])]

/-- The fixed mock catalog `mockData` (`app.js` 510-568). -/
def mockData : List Json := [mockDish1, mockDish2, mockDish3]

/-- `getMockAnalysisResult` (`app.js` 499-571), with the two
`Math.random()` draws made explicit: `r1` decides food detection
(`r1 > 0.7`, a 0.3-probability event under the uniform draw on `[0,1)`)
and `r2` picks the catalog index `floor(r2 * 3)`. -/
def getMockAnalysisResult (r1 r2 : ℚ) : Json :=
  let shouldDetectFood : Bool := decide ((7 : ℚ) / 10 < r1)
  if shouldDetectFood = false then noFoodMockResult
  else mockData.getD (⌊r2 * (mockData.length : ℚ)⌋).toNat .null

/-- Outcome of the client `fetch` of `/api/analyze`: a 2xx response
with parsed JSON body, a non-2xx response, or a thrown error (network
failure, timeout, body-parse failure). -/
inductive FetchOutcome where
  | ok (body : Json)
  | httpError (status : Nat) (text : String)
  | thrown (message : String)

/-- Provider selection of `analyzeImageWithAI` (`app.js` line 314). -/
def selectedProvider (cfg : APIConfig) : String :=
  jsOrDefault cfg.defaultProvider "gemini"

/-- Key selection of `analyzeImageWithAI` (`app.js` line 315). -/
def selectedKey (cfg : APIConfig) : Option String :=
  if selectedProvider cfg = "gemini" then cfg.geminiApiKey else cfg.perplexityApiKey

/-- The client orchestrator `analyzeImageWithAI` (`app.js` 296-366):
`config` is the `/api/config` result (`none` when that fetch threw),
`outcome` the `/api/analyze` call, and `r1 r2` the random draws of the
`getMockAnalysisResult` call taken on the fallback path. Every branch
returns a value: the function never rejects. -/
def analyzeImageWithAI (config : Option APIConfig) (outcome : FetchOutcome)
    (r1 r2 : ℚ) : Json :=
  match config with
  | none => getMockAnalysisResult r1 r2
  | some cfg =>
    if clientIsValidAPIKey (selectedKey cfg) (selectedProvider cfg) = false then
      getMockAnalysisResult r1 r2
    else
      match outcome with
      | .ok body => body
      | .httpError _ _ => getMockAnalysisResult r1 r2
      | .thrown _ => getMockAnalysisResult r1 r2

/-- The exact rational a JSON number literal denotes. -/
def jsonNumVal (m e : Int) : ℚ := (m : ℚ) * (10 : ℚ) ^ e

/-- The claim C1 notion "this JSON value is the integer n". -/
def jsonDenotesInt (v : Json) (n : Int) : Prop :=
  ∃ m e : Int, v = .num m e ∧ jsonNumVal m e = (n : ℚ)

/-- Stated from the spec sentence of claim C1: the result has `rating`
absent or an integer in 1..5. -/
def specRatingOk (result : Json) : Prop :=
  ∀ v, jsField result "rating" = some v →
    ∃ n : Int, 1 ≤ n ∧ n ≤ 5 ∧ jsonDenotesInt v n

/-- Stated from the spec sentence of claim C1: the result has
`healthScore` absent or an integer in 0..100. -/
def specHealthScoreOk (result : Json) : Prop :=
  ∀ v, jsField result "healthScore" = some v →
    ∃ n : Int, 0 ≤ n ∧ n ≤ 100 ∧ jsonDenotesInt v n

/-- The result the normalizer returns on the claim C1 counterexample
reply: food detected with out-of-range rating 99 and healthScore 999. -/
def claimC1CexResult : Json :=
  .obj [("foodDetected", .bool true), ("rating", .num 99 0), ("healthScore", .num 999 0)]

/-! ### Sanity checks of the JSON.parse and regex models -/

theorem jsonParse_object_sample : jsonParse "\x7b\"a\":1\x7d" = some (.obj [("a", .num 1 0)]) := rfl

theorem jsonParse_non_json_sample : jsonParse "blah" = none := rfl

theorem jsonParse_nested_sample :
    jsonParse " \x7b \"a\" : [1, -2.5e1, true, null, \"x\"] \x7d " =
      some (.obj [("a", .arr [.num 1 0, .num (-25) 0, .bool true, .null, .str "x"])]) := rfl

theorem braceMatch_sample :
    braceMatch "here you go: \x7b\"m\":\"x\"\x7d tail".data =
      some "\x7b\"m\":\"x\"\x7d".data := rfl

/-! ### Helper lemmas about the normalization step -/

theorem normalize_of_no_match {s : String} (h : braceMatch s.data = none) :
    normalizeAnalysisText s = mkNoFoodResult noJsonMsg := by
  simp [normalizeAnalysisText, h]

theorem normalize_of_parse_fail {s : String} {sub : List Char}
    (h1 : braceMatch s.data = some sub) (h2 : jsonParseL sub = none) :
    normalizeAnalysisText s = mkNoFoodResult parseFailMsg := by
  simp [normalizeAnalysisText, h1, h2]

theorem normalize_of_bool_detected {s : String} {sub : List Char} {parsed : Json}
    {b : Bool} (h1 : braceMatch s.data = some sub) (h2 : jsonParseL sub = some parsed)
    (h3 : jsField parsed "foodDetected" = some (.bool b)) :
    normalizeAnalysisText s = parsed := by
  cases b <;> simp [normalizeAnalysisText, h1, h2, h3]

theorem normalize_of_no_bool {s : String} {sub : List Char} {parsed : Json}
    (h1 : braceMatch s.data = some sub) (h2 : jsonParseL sub = some parsed)
    (h3 : ∀ b : Bool, jsField parsed "foodDetected" ≠ some (.bool b)) :
    normalizeAnalysisText s = mkNoFoodResult undeterminedMsg := by
  rcases hf : jsField parsed "foodDetected" with _ | v
  · simp [normalizeAnalysisText, h1, h2, hf]
  · cases v with
    | bool b => exact absurd hf (h3 b)
    | null => simp [normalizeAnalysisText, h1, h2, hf]
    | num m e => simp [normalizeAnalysisText, h1, h2, hf]
    | str t => simp [normalizeAnalysisText, h1, h2, hf]
    | arr l => simp [normalizeAnalysisText, h1, h2, hf]
    | obj f => simp [normalizeAnalysisText, h1, h2, hf]

/-! ### Claims about the response normalizer -/

/-- Claim C5: for every provider reply whose free-text body contains no
brace-delimited substring, or whose extracted substring fails JSON
parsing, both normalizers return a foodDetected-false object carrying
the corresponding fixed default message (and, being total functions,
never throw); concretely, the reply "blah blah not json" yields the
no-JSON default and a reply whose braces enclose non-JSON yields the
parse-failure default. -/
theorem claim_C5_malformed_reply_defaults :
    (∀ s : String, braceMatch s.data = none →
      analyzeWithGeminiNormalize s = mkNoFoodResult noJsonMsg ∧
      analyzeWithPerplexityNormalize s = mkNoFoodResult noJsonMsg) ∧
    (∀ (s : String) (sub : List Char), braceMatch s.data = some sub →
      jsonParseL sub = none →
      analyzeWithGeminiNormalize s = mkNoFoodResult parseFailMsg ∧
      analyzeWithPerplexityNormalize s = mkNoFoodResult parseFailMsg) ∧
    (∀ msg, jsField (mkNoFoodResult msg) "foodDetected" = some (.bool false) ∧
      jsField (mkNoFoodResult msg) "message" = some (.str msg)) ∧
    analyzeWithGeminiNormalize "blah blah not json" = mkNoFoodResult noJsonMsg ∧
    analyzeWithGeminiNormalize "\x7bnot json\x7d" = mkNoFoodResult parseFailMsg := by
  refine ⟨fun s h => ?_, fun s sub h1 h2 => ?_, fun msg => ⟨rfl, rfl⟩, rfl, rfl⟩
  · exact ⟨normalize_of_no_match h, normalize_of_no_match h⟩
  · exact ⟨normalize_of_parse_fail h1 h2, normalize_of_parse_fail h1 h2⟩

/-- Claim C6: for every provider reply whose extracted substring parses
but whose foodDetected field is missing or not a boolean, the
normalizer returns the undetermined default: foodDetected false with
the unable-to-determine message; concretely so for a parsed object
with no foodDetected field and for one whose foodDetected is the
string "yes". -/
theorem claim_C6_undetermined_default :
    (∀ (s : String) (sub : List Char) (parsed : Json),
      braceMatch s.data = some sub → jsonParseL sub = some parsed →
      (∀ b : Bool, jsField parsed "foodDetected" ≠ some (.bool b)) →
      analyzeWithGeminiNormalize s = mkNoFoodResult undeterminedMsg ∧
      analyzeWithPerplexityNormalize s = mkNoFoodResult undeterminedMsg) ∧
    jsField (mkNoFoodResult undeterminedMsg) "foodDetected" = some (.bool false) ∧
    jsField (mkNoFoodResult undeterminedMsg) "message" = some (.str undeterminedMsg) ∧
    analyzeWithGeminiNormalize "\x7b\"x\":1\x7d" = mkNoFoodResult undeterminedMsg ∧
    analyzeWithGeminiNormalize "\x7b\"foodDetected\":\"yes\"\x7d" =
      mkNoFoodResult undeterminedMsg := by
  refine ⟨fun s sub parsed h1 h2 h3 => ?_, rfl, rfl, rfl, rfl⟩
  exact ⟨normalize_of_no_bool h1 h2 h3, normalize_of_no_bool h1 h2 h3⟩

/-- Claim C7: the reply body "here you go: " followed by the JSON
object with foodDetected false and message "x" has that embedded
brace-delimited substring extracted and parsed, and the normalizer
returns exactly that object. -/
theorem claim_C7_embedded_json_extracted :
    analyzeWithGeminiNormalize "here you go: \x7b\"foodDetected\":false,\"message\":\"x\"\x7d" =
      .obj [("foodDetected", .bool false), ("message", .str "x")] ∧
    braceMatch "here you go: \x7b\"foodDetected\":false,\"message\":\"x\"\x7d".data =
      some "\x7b\"foodDetected\":false,\"message\":\"x\"\x7d".data ∧
    jsField (analyzeWithGeminiNormalize
        "here you go: \x7b\"foodDetected\":false,\"message\":\"x\"\x7d") "foodDetected" =
      some (.bool false) ∧
    jsField (analyzeWithGeminiNormalize
        "here you go: \x7b\"foodDetected\":false,\"message\":\"x\"\x7d") "message" =
      some (.str "x") :=
  ⟨rfl, rfl, rfl, rfl⟩

/-- Claim C1 is false of the code: on a reply whose extracted JSON has
foodDetected true, rating 99 and healthScore 999, the normalizer
passes both out-of-range values through unchanged instead of treating
them as absent or clamping them. -/
theorem claim_C1_counterexample :
    analyzeWithGeminiNormalize "\x7b\"foodDetected\":true,\"rating\":99,\"healthScore\":999\x7d" =
      claimC1CexResult ∧
    jsField claimC1CexResult "foodDetected" = some (.bool true) ∧
    jsField claimC1CexResult "rating" = some (.num 99 0) ∧
    jsField claimC1CexResult "healthScore" = some (.num 999 0) ∧
    ¬ specRatingOk (analyzeWithGeminiNormalize
        "\x7b\"foodDetected\":true,\"rating\":99,\"healthScore\":999\x7d") ∧
    ¬ specHealthScoreOk (analyzeWithGeminiNormalize
        "\x7b\"foodDetected\":true,\"rating\":99,\"healthScore\":999\x7d") := by
  refine ⟨rfl, rfl, rfl, rfl, fun h => ?_, fun h => ?_⟩
  · obtain ⟨n, h1, h5, m, e, heq, hval⟩ := h (.num 99 0) rfl
    injection heq with hm he
    subst hm; subst he
    simp [jsonNumVal] at hval
    have hn : n = 99 := by exact_mod_cast hval.symm
    omega
  · obtain ⟨n, h0, h100, m, e, heq, hval⟩ := h (.num 999 0) rfl
    injection heq with hm he
    subst hm; subst he
    simp [jsonNumVal] at hval
    have hn : n = 999 := by exact_mod_cast hval.symm
    omega

/-- Claim C1 amended: when the extracted JSON parses and its
foodDetected field is boolean (in particular true), the normalizer
returns the parsed object completely unchanged — rating and
healthScore are passed through verbatim, with no coercion into [1,5],
no clamping into [0,100] and no type validation. -/
theorem claim_C1_theorem (s : String) (sub : List Char) (parsed : Json) (b : Bool)
    (h1 : braceMatch s.data = some sub) (h2 : jsonParseL sub = some parsed)
    (h3 : jsField parsed "foodDetected" = some (.bool b)) :
    analyzeWithGeminiNormalize s = parsed ∧
    analyzeWithPerplexityNormalize s = parsed :=
  ⟨normalize_of_bool_detected h1 h2 h3, normalize_of_bool_detected h1 h2 h3⟩

/-- Witness for the amended claim C1 at the counterexample reply. -/
theorem claim_C1_witness :
    analyzeWithGeminiNormalize "\x7b\"foodDetected\":true,\"rating\":99,\"healthScore\":999\x7d" =
      claimC1CexResult ∧
    analyzeWithPerplexityNormalize "\x7b\"foodDetected\":true,\"rating\":99,\"healthScore\":999\x7d" =
      claimC1CexResult :=
  claim_C1_theorem "\x7b\"foodDetected\":true,\"rating\":99,\"healthScore\":999\x7d"
    "\x7b\"foodDetected\":true,\"rating\":99,\"healthScore\":999\x7d".data
    claimC1CexResult true rfl rfl rfl

/-! ### Claims about the analyze route and the key validators -/

/-- Claim C4: every POST to /api/analyze whose body lacks the
imageData field gets HTTP 400 with a JSON body carrying both an error
field and a message field, and no provider analysis is invoked —
whatever the environment, requested provider or would-be provider
outcomes. -/
theorem claim_C4_missing_image_data :
    ∀ (env : ServerEnv) (provider : Option String) (g p : CallOutcome),
      (analyzeHandler env none provider g p).1.status = 400 ∧
      jsField (analyzeHandler env none provider g p).1.body "error" =
        some (.str "Missing image data") ∧
      jsField (analyzeHandler env none provider g p).1.body "message" =
        some (.str "Image data is required for analysis") ∧
      (analyzeHandler env none provider g p).2 = [] :=
  fun _ _ _ _ => ⟨rfl, rfl, rfl, rfl⟩

/-- Claim C3 is false of the code: the exact request of the claim —
imageData "data:image/jpeg;base64,Zm9v", provider "gemini" — with no
Gemini key configured is answered with HTTP 400 and the error
envelope, not HTTP 200 with a mock result (the server has no mock
fallback; that fallback lives in the client orchestrator). -/
theorem claim_C3_counterexample :
    (analyzeHandler ⟨none, none⟩ (some "data:image/jpeg;base64,Zm9v") (some "gemini")
        (.ok .null) (.ok .null)).1.status = 400 ∧
    (analyzeHandler ⟨none, none⟩ (some "data:image/jpeg;base64,Zm9v") (some "gemini")
        (.ok .null) (.ok .null)).1.status ≠ 200 ∧
    (analyzeHandler ⟨none, none⟩ (some "data:image/jpeg;base64,Zm9v") (some "gemini")
        (.ok .null) (.ok .null)).1.body = errBody "Gemini API key not configured"
        "Please set a valid Gemini API key in environment variables" ∧
    (analyzeHandler ⟨none, none⟩ (some "data:image/jpeg;base64,Zm9v") (some "gemini")
        (.ok .null) (.ok .null)).2 = [] :=
  ⟨rfl, by decide, rfl, rfl⟩

/-- Claim C3 amended: a POST to /api/analyze with a non-empty imageData
and provider "gemini" while no valid Gemini key is configured returns
HTTP 400 with the key-not-configured error envelope and invokes no
provider; the mock fallback for an unconfigured provider happens in
the client, not at this endpoint. -/
theorem claim_C3_theorem (env : ServerEnv) (imageData : String) (g p : CallOutcome)
    (hkey : isValidGeminiAPIKey env.geminiApiKey = false)
    (himg : jsTruthy (some imageData) = true) :
    analyzeHandler env (some imageData) (some "gemini") g p =
      (⟨400, errBody "Gemini API key not configured"
        "Please set a valid Gemini API key in environment variables"⟩, []) := by
  simp [analyzeHandler, himg, hkey]

/-- Witness for the amended claim C3 at the claim input with an unset
Gemini key. -/
theorem claim_C3_witness :
    analyzeHandler ⟨none, none⟩ (some "data:image/jpeg;base64,Zm9v") (some "gemini")
        (.ok .null) (.ok .null) =
      (⟨400, errBody "Gemini API key not configured"
        "Please set a valid Gemini API key in environment variables"⟩, []) :=
  claim_C3_theorem ⟨none, none⟩ "data:image/jpeg;base64,Zm9v" (.ok .null) (.ok .null) rfl rfl

/-- Claim C8: the Perplexity key validator accepts exactly the strings
that start with "pplx-", are not the placeholder and are longer than
20 characters; the Gemini key validator accepts exactly the strings
that start with "AIza" and are longer than 20 characters; in
particular "AIzaSyTESTKEY1234567890" validates while "short" and the
Perplexity placeholder do not. -/
theorem claim_C8_key_validators :
    (∀ k : String, isValidAPIKey (some k) = true ↔
      (strStartsWith k "pplx-" = true ∧ k ≠ pplxPlaceholder ∧ 20 < k.length)) ∧
    (∀ k : String, isValidGeminiAPIKey (some k) = true ↔
      (strStartsWith k "AIza" = true ∧ 20 < k.length)) ∧
    isValidGeminiAPIKey (some "AIzaSyTESTKEY1234567890") = true ∧
    isValidGeminiAPIKey (some "short") = false ∧
    isValidAPIKey (some pplxPlaceholder) = false := by
  refine ⟨fun k => ?_, fun k => ?_, by decide, by decide, by decide⟩
  · simp only [isValidAPIKey, Bool.and_eq_true, bne_iff_ne, decide_eq_true_eq]
    constructor
    · rintro ⟨⟨⟨-, hp⟩, hs⟩, hl⟩
      exact ⟨hs, hp, hl⟩
    · rintro ⟨hs, hp, hl⟩
      have hne : k ≠ "" := by
        intro he
        rw [he] at hl
        have h0 : ("" : String).length = 0 := rfl
        omega
      exact ⟨⟨⟨hne, hp⟩, hs⟩, hl⟩
  · simp only [isValidGeminiAPIKey, Bool.and_eq_true, bne_iff_ne, decide_eq_true_eq]
    constructor
    · rintro ⟨⟨-, hs⟩, hl⟩
      exact ⟨hs, hl⟩
    · rintro ⟨hs, hl⟩
      have hne : k ≠ "" := by
        intro he
        rw [he] at hl
        have h0 : ("" : String).length = 0 := rfl
        omega
      exact ⟨⟨hne, hs⟩, hl⟩

/-- Claim C10: provider routing of POST /api/analyze. A missing
provider field is handled exactly like provider "gemini", and every
provider string other than "gemini" — not only "perplexity" — is
handled exactly like "perplexity": it is gated by the Perplexity key
validator, rejected with 400 and no provider call when that validator
fails, and otherwise invokes exactly the Perplexity analysis. -/
theorem claim_C10_provider_routing :
    ∀ (env : ServerEnv) (imageData : Option String) (p : String) (g pc : CallOutcome),
      (analyzeHandler env imageData none g pc =
        analyzeHandler env imageData (some "gemini") g pc) ∧
      (p ≠ "gemini" →
        analyzeHandler env imageData (some p) g pc =
          analyzeHandler env imageData (some "perplexity") g pc) ∧
      (p ≠ "gemini" → jsTruthy imageData = true →
        (isValidAPIKey env.perplexityApiKey = false →
          (analyzeHandler env imageData (some p) g pc).1.status = 400 ∧
          (analyzeHandler env imageData (some p) g pc).2 = []) ∧
        (isValidAPIKey env.perplexityApiKey = true →
          (analyzeHandler env imageData (some p) g pc).2 = ["perplexity"])) := by
  intro env imageData p g pc
  refine ⟨rfl, fun hp => ?_, fun hp himg => ?_⟩
  · simp [analyzeHandler, hp]
  · constructor
    · intro hk
      simp [analyzeHandler, hp, himg, hk]
    · intro hk
      cases pc <;> simp [analyzeHandler, hp, himg, hk]

/-! ### Claim about the client orchestrator -/

/-- Claim C2: the client orchestrator analyzeImageWithAI is total and
never rejects — its result is always either the mock generator result
or the 2xx server body; in particular it returns the mock result when
the config fetch failed, when the selected provider key is absent or
fails format validation, and when the analyze call returned non-2xx or
threw. -/
theorem claim_C2_orchestrator_never_fails :
    ∀ (config : Option APIConfig) (outcome : FetchOutcome) (r1 r2 : ℚ),
      (config = none →
        analyzeImageWithAI config outcome r1 r2 = getMockAnalysisResult r1 r2) ∧
      (∀ cfg, config = some cfg →
        clientIsValidAPIKey (selectedKey cfg) (selectedProvider cfg) = false →
        analyzeImageWithAI config outcome r1 r2 = getMockAnalysisResult r1 r2) ∧
      (∀ status text, outcome = .httpError status text →
        analyzeImageWithAI config outcome r1 r2 = getMockAnalysisResult r1 r2) ∧
      (∀ msg, outcome = .thrown msg →
        analyzeImageWithAI config outcome r1 r2 = getMockAnalysisResult r1 r2) ∧
      (analyzeImageWithAI config outcome r1 r2 = getMockAnalysisResult r1 r2 ∨
        ∃ body, outcome = .ok body ∧ analyzeImageWithAI config outcome r1 r2 = body) := by
  intro config outcome r1 r2
  cases config with
  | none =>
    refine ⟨fun _ => rfl, fun cfg h => absurd h (by simp), fun st tx h => rfl,
      fun m h => rfl, Or.inl rfl⟩
  | some cfg =>
    by_cases hv : clientIsValidAPIKey (selectedKey cfg) (selectedProvider cfg) = false
    · refine ⟨fun h => absurd h (by simp), fun cfg' h hv' => ?_, fun st tx h => ?_,
        fun m h => ?_, Or.inl ?_⟩ <;>
        simp [analyzeImageWithAI, hv]
    · have hv' : clientIsValidAPIKey (selectedKey cfg) (selectedProvider cfg) = true := by
        revert hv
        cases clientIsValidAPIKey (selectedKey cfg) (selectedProvider cfg) <;> simp
      refine ⟨fun h => absurd h (by simp), fun cfg' h hvf => ?_, fun st tx h => ?_,
        fun m h => ?_, ?_⟩
      · obtain rfl : cfg = cfg' := by injection h
        rw [hvf] at hv'
        cases hv'
      · subst h
        simp [analyzeImageWithAI, hv']
      · subst h
        simp [analyzeImageWithAI, hv']
      · cases outcome with
        | ok body => exact Or.inr ⟨body, rfl, by simp [analyzeImageWithAI, hv']⟩
        | httpError st tx => exact Or.inl (by simp [analyzeImageWithAI, hv'])
        | thrown m => exact Or.inl (by simp [analyzeImageWithAI, hv'])

/-! ### Claim about the mock analysis generator -/

theorem mockData_getD_mem (n : ℕ) (h : n < 3) : mockData.getD n Json.null ∈ mockData := by
  interval_cases n <;> simp [mockData, List.getD]

/-- Claim C9: modelled over its two uniform draws on the interval from
0 inclusive to 1 exclusive, the mock generator returns the no-food
message result exactly when the first draw is at most 0.7 (an event of
probability 0.7), and otherwise — probability 0.3 — the catalog dish
whose index is the third of the unit interval the second draw fell in
(a uniform choice over the 3-dish catalog); no other output is
possible, every catalog dish has foodDetected true with rating,
healthScore, pros, cons and recommendations all present, and the
no-food result carries its message. -/
theorem claim_C9_mock_distribution :
    ∀ r1 r2 : ℚ, 0 ≤ r1 → r1 < 1 → 0 ≤ r2 → r2 < 1 →
      (r1 ≤ 7/10 → getMockAnalysisResult r1 r2 = noFoodMockResult) ∧
      (7/10 < r1 → ∀ i : ℕ, i < 3 → (i : ℚ)/3 ≤ r2 → r2 < ((i : ℚ)+1)/3 →
        getMockAnalysisResult r1 r2 = mockData.getD i Json.null) ∧
      (getMockAnalysisResult r1 r2 = noFoodMockResult ∨
        getMockAnalysisResult r1 r2 ∈ mockData) ∧
      (∀ d ∈ mockData, jsField d "foodDetected" = some (.bool true) ∧
        (jsField d "rating").isSome = true ∧ (jsField d "healthScore").isSome = true ∧
        (jsField d "pros").isSome = true ∧ (jsField d "cons").isSome = true ∧
        (jsField d "recommendations").isSome = true) ∧
      jsField noFoodMockResult "foodDetected" = some (.bool false) ∧
      (jsField noFoodMockResult "message").isSome = true ∧
      mockData.length = 3 := by
  intro r1 r2 h1 h2 h3 h4
  have hlen : ((mockData.length : ℕ) : ℚ) = 3 := by norm_num [mockData]
  refine ⟨?_, ?_, ?_, ?_, rfl, rfl, rfl⟩
  · intro hle
    have hd : decide ((7:ℚ)/10 < r1) = false := decide_eq_false (not_lt.2 hle)
    simp [getMockAnalysisResult, hd]
  · intro hgt i hi3 hlo hhi
    have hd : decide ((7:ℚ)/10 < r1) = true := decide_eq_true hgt
    have hfloor : ⌊r2 * (mockData.length : ℚ)⌋ = (i : ℤ) := by
      rw [hlen, Int.floor_eq_iff]
      constructor
      · push_cast
        linarith
      · push_cast
        linarith
    have hidx : (⌊r2 * (mockData.length : ℚ)⌋).toNat = i := by omega
    simp [getMockAnalysisResult, hd, hidx]
  · by_cases hgt : (7:ℚ)/10 < r1
    · have hd : decide ((7:ℚ)/10 < r1) = true := decide_eq_true hgt
      have hnn : (0:ℤ) ≤ ⌊r2 * (mockData.length : ℚ)⌋ := by
        rw [hlen]
        exact Int.le_floor.2 (by push_cast; linarith)
      have hlt : ⌊r2 * (mockData.length : ℚ)⌋ < 3 := by
        rw [hlen]
        exact Int.floor_lt.2 (by push_cast; linarith)
      have hn3 : (⌊r2 * (mockData.length : ℚ)⌋).toNat < 3 := by omega
      have heq : getMockAnalysisResult r1 r2 =
          mockData.getD ((⌊r2 * (mockData.length : ℚ)⌋).toNat) Json.null := by
        simp [getMockAnalysisResult, hd]
      rw [heq]
      exact Or.inr (mockData_getD_mem _ hn3)
    · have hd : decide ((7:ℚ)/10 < r1) = false := decide_eq_false hgt
      exact Or.inl (by simp [getMockAnalysisResult, hd])
  · intro d hd
    simp only [mockData, List.mem_cons, List.not_mem_nil, or_false] at hd
    rcases hd with rfl | rfl | rfl <;> exact ⟨rfl, rfl, rfl, rfl, rfl, rfl⟩

/-- Witness for claim C9: a detecting draw picks the middle catalog
dish; a non-detecting draw yields the no-food result. -/
theorem claim_C9_witness :
    getMockAnalysisResult (4/5 : ℚ) (1/2 : ℚ) = mockData.getD 1 Json.null ∧
    getMockAnalysisResult (1/2 : ℚ) (1/2 : ℚ) = noFoodMockResult := by
  constructor
  · exact (claim_C9_mock_distribution (4/5) (1/2) (by norm_num) (by norm_num) (by norm_num)
      (by norm_num)).2.1 (by norm_num) 1 (by norm_num) (by norm_num) (by norm_num)
  · exact (claim_C9_mock_distribution (1/2) (1/2) (by norm_num) (by norm_num) (by norm_num)
      (by norm_num)).1 (by norm_num)
